import Mathlib

/-!
Verification of the request-scoped database access layer of the `tdcweb`
backend (`src/backend/app/utils/db.py`), its JSON response helpers
(`src/backend/app/utils/responses.py`) and the DB health endpoint
(`src/backend/app/routes/api/health.py`).

The Python code is shallowly embedded:
* exceptions become an `Except PyErr` result type; Python's typed
  `except mysql.connector.Error` clauses become a `match` on the error
  constructor, the untyped `except Exception` catches every constructor;
* the calls the code makes on driver objects (`conn.commit()`,
  `conn.rollback()`, `cursor.close()`, pool checkout, ...) are recorded as
  events in a trace, so that "rollback is invoked exactly once" is a
  statement about the trace;
* the module-level globals (`_pool`) and Flask's per-request `g` object
  become fields of an explicit state record threaded through the
  functions.
-/

namespace Tdcweb

/-- Observable calls the layer makes on the driver objects. -/
inductive Event where
  /-- `conn.cursor(...)` — a cursor is created. -/
  | cursorOpen
  /-- `conn.commit()`. -/
  | commit
  /-- `conn.rollback()`. -/
  | rollback
  /-- `cursor.close()` — the cursor resource is released. -/
  | cursorClose
  deriving DecidableEq, Repr

/-- Python exceptions that the embedded code distinguishes.
`mysqlError` stands for `mysql.connector.Error` and its subclasses
(the class the typed `except` clauses in `db.py` catch);
`runtimeError` for `RuntimeError`; `zeroDivisionError` for
`ZeroDivisionError`; `otherError` for any other exception class. -/
inductive PyErr where
  | mysqlError (msg : String)
  | runtimeError (msg : String)
  | zeroDivisionError
  | otherError (msg : String)
  deriving DecidableEq, Repr

/-- A computation that may raise a Python exception while appending
driver events to a trace: given the trace so far it produces the
result (normal value or raised exception) and the extended trace. -/
def Eff (α : Type) : Type := List Event → Except PyErr α × List Event

/-- Return a value, emitting nothing (Python: plain expression). -/
def Eff.pure (a : α) : Eff α := fun tr => (Except.ok a, tr)

/-- Sequencing: if the first computation raises, the second never runs. -/
def Eff.bind (x : Eff α) (f : α → Eff β) : Eff β := fun tr =>
  match x tr with
  | (Except.ok a, tr1) => f a tr1
  | (Except.error e, tr1) => (Except.error e, tr1)

/-- Record one driver call. -/
def Eff.emit (ev : Event) : Eff Unit := fun tr => (Except.ok (), tr ++ [ev])

/-- Python `raise e`. -/
def Eff.raise (e : PyErr) : Eff α := fun tr => (Except.error e, tr)

/-- Python `try: x except Exception: handler` — the untyped handler
receives every raised exception. -/
def Eff.tryExceptAll (x : Eff α) (handler : PyErr → Eff α) : Eff α := fun tr =>
  match x tr with
  | (Except.ok a, tr1) => (Except.ok a, tr1)
  | (Except.error e, tr1) => handler e tr1

/-- Python `try: x finally: fin` — `fin` runs on both exit paths; if the
body raised and `fin` completes normally, the body's exception
propagates. -/
def Eff.tryFinally (x : Eff α) (fin : Eff Unit) : Eff α := fun tr =>
  match x tr with
  | (Except.ok a, tr1) =>
      (match fin tr1 with
       | (Except.ok _, tr2) => (Except.ok a, tr2)
       | (Except.error e2, tr2) => (Except.error e2, tr2))
  | (Except.error e, tr1) =>
      (match fin tr1 with
       | (Except.ok _, tr2) => (Except.error e, tr2)
       | (Except.error e2, tr2) => (Except.error e2, tr2))

/-- Embedding of `get_cursor` (db.py lines 89–118), given the body executed under the
`with` statement.  Mirrors the source:

    cursor = conn.cursor(dictionary=dictionary, buffered=buffered)
    try:
        yield cursor
        conn.commit()
    except Exception:
        conn.rollback()
        raise
    finally:
        cursor.close()

The connection was already obtained by `get_connection` (modelled
separately); `conn.cursor`, `conn.commit`, `conn.rollback` and
`cursor.close` are recorded as events. -/
def get_cursor (body : Eff α) : Eff α :=
  Eff.bind (Eff.emit Event.cursorOpen) (fun _ =>
    Eff.tryFinally
      (Eff.tryExceptAll
        (Eff.bind body (fun a => Eff.bind (Eff.emit Event.commit) (fun _ => Eff.pure a)))
        (fun e => Eff.bind (Eff.emit Event.rollback) (fun _ => Eff.raise e)))
      (Eff.emit Event.cursorClose))

/-- An arbitrary Python body for the `with get_cursor()` block: it
performs some sequence of driver calls `evs` and then either returns a
value or raises — every body is of this shape. -/
def bodyOf (evs : List Event) (outcome : Except PyErr α) : Eff α :=
  fun tr => (outcome, tr ++ evs)

/-- A pooled connection, identified by the order in which it was checked
out of the pool. -/
abbrev Conn := Nat

/-- A pool object, identified by creation order. -/
abbrev Pool := Nat

/-- What the driver's `conn.close()` does for a given connection:
returns normally, or raises some exception. -/
inductive CloseResult where
  | okClose
  | raises (e : PyErr)
  deriving DecidableEq

/-- The module- and request-level state of `db.py`:
the module global `_pool`, the Flask request-scoped slot `g.db_conn`,
plus instrumentation counting the driver calls the layer performs
(`_pool.get_connection()` checkouts, `conn.close()` calls) and the pools
whose connections this layer ever closed or returned. -/
structure AppState where
  pool : Option Pool
  gConn : Option Conn
  checkouts : Nat
  closeCalls : Nat
  poolsReclaimed : List Pool
  deriving DecidableEq

/-- Embedding of `get_connection` (db.py lines 58–70).  Mirrors the source:

    if 'db_conn' not in g:
        if _pool is None:
            raise RuntimeError("Database pool not initialized. Call init_pool first.")
        g.db_conn = _pool.get_connection()
    return g.db_conn

A successful pool checkout yields a fresh connection (numbered by
checkout order) and is counted. -/
def get_connection (s : AppState) : Except PyErr Conn × AppState :=
  match s.gConn with
  | some c => (Except.ok c, s)
  | none =>
    match s.pool with
    | none =>
        (Except.error (PyErr.runtimeError
          "Database pool not initialized. Call init_pool first."), s)
    | some _ =>
        let c := s.checkouts
        (Except.ok c, { s with gConn := some c, checkouts := s.checkouts + 1 })

/-- Iterates `n` successive calls to `get_connection` in the same request context,
collecting each call's result and threading the state. -/
def get_connection_calls (n : Nat) (s : AppState) : List (Except PyErr Conn) × AppState :=
  match n with
  | 0 => ([], s)
  | Nat.succ m =>
    let r := get_connection s
    let rest := get_connection_calls m r.2
    (r.1 :: rest.1, rest.2)

/-- Embedding of `close_connection` (db.py lines 73–86), parameterised by the driver's
behaviour `closeRes` when closing each connection.  Mirrors the source:

    conn = g.pop('db_conn', None)
    if conn is not None:
        try:
            conn.close()
        except mysql.connector.Error as e:
            logger.warning(...)

The `except` clause is typed: only `mysql.connector.Error` is caught
(and logged); any other exception raised by `conn.close()` propagates. -/
def close_connection (closeRes : Conn → CloseResult) (s : AppState) :
    Except PyErr Unit × AppState :=
  match s.gConn with
  | none => (Except.ok (), s)
  | some c =>
    let s1 : AppState := { s with gConn := none, closeCalls := s.closeCalls + 1 }
    match closeRes c with
    | CloseResult.okClose => (Except.ok (), s1)
    | CloseResult.raises e =>
      match e with
      | PyErr.mysqlError _ => (Except.ok (), s1)
      | e2 => (Except.error e2, s1)

/-- Embedding of `init_pool` (db.py lines 19–49), parameterised by the outcome
`create` of `pooling.MySQLConnectionPool(**pool_config)` (a fresh pool
object, or a raised error).  Mirrors the source:

    global _pool
    try:
        _pool = pooling.MySQLConnectionPool(**pool_config)
        logger.info(...)
    except mysql.connector.Error as e:
        logger.error(...)
        raise

On success the global is overwritten with the new pool; on failure the
caught error is logged and re-raised, leaving the global unchanged.
Nothing is ever done to a previously stored pool: `poolsReclaimed`
is untouched on every path. -/
def init_pool (create : Except PyErr Pool) (s : AppState) : Except PyErr Unit × AppState :=
  match create with
  | Except.ok p => (Except.ok (), { s with pool := some p })
  | Except.error e => (Except.error e, s)

/-- A fresh process state: no pool, no request-bound connection, no
driver calls performed yet. -/
def initState : AppState :=
  { pool := none, gConn := none, checkouts := 0, closeCalls := 0, poolsReclaimed := [] }

/-- Outcome of the probe `fetch_one("SELECT 1 as connected")` inside
`test_connection`: the returned dict's value under the key
`'connected'` (`none` when the key is absent), no row (`fetch_one`
returned `None`), or an exception raised anywhere inside the probe
(uninitialised pool, driver error, ...). -/
inductive ProbeOutcome where
  | row (connected : Option Int)
  | noRow
  | raised (e : PyErr)
  deriving DecidableEq

/-- Python `try: x except Exception: handler` for a plain expression:
the untyped handler receives every raised exception. -/
def pyTryAll (x : Except PyErr α) (handler : PyErr → Except PyErr α) : Except PyErr α :=
  match x with
  | Except.ok a => Except.ok a
  | Except.error e => handler e

/-- Embedding of `test_connection` (db.py lines 221–233).  Mirrors the source:

    try:
        result = fetch_one("SELECT 1 as connected")
        return result is not None and result.get('connected') == 1
    except Exception as e:
        logger.error(...)
        return False
-/
def test_connection (o : ProbeOutcome) : Except PyErr Bool :=
  pyTryAll
    (match o with
     | ProbeOutcome.raised e => Except.error e
     | ProbeOutcome.noRow => Except.ok false
     | ProbeOutcome.row c => Except.ok (c == some 1))
    (fun _ => Except.ok false)

/-- Python's `str.strip()` with the default whitespace set
(modelled on the ASCII whitespace characters). -/
def pyStrip (s : List Char) : List Char :=
  ((s.dropWhile Char.isWhitespace).reverse.dropWhile Char.isWhitespace).reverse

/-- Python's `str.upper()` (modelled on the ASCII case mapping). -/
def pyUpper (s : List Char) : List Char := s.map Char.toUpper

/-- Python's `s.startswith(pre)`. -/
def pyStartswith (s pre : List Char) : Bool := List.isPrefixOf pre s

/-- The return-value dispatch of `execute` (db.py lines 167–196),
given the executed cursor's `lastrowid` and `rowcount`.
Mirrors the source:

    if query.strip().upper().startswith('INSERT'):
        return cursor.lastrowid
    return cursor.rowcount
-/
def execute (query : List Char) (lastrowid rowcount : Int) : Int :=
  if pyStartswith (pyUpper (pyStrip query)) "INSERT".data then lastrowid
  else rowcount

/-- The claim's classification, written from its words: the query with
surrounding whitespace stripped starts, case-insensitively, with
`INSERT`. -/
def insertShapedSpec (query : List Char) : Bool :=
  decide (((pyStrip query).take "INSERT".data.length).map Char.toUpper = "INSERT".data)

/-- JSON values as produced by `jsonify`; object key insertion order is
preserved. -/
inductive JVal where
  | jnull
  | jbool (b : Bool)
  | jnum (n : Int)
  | jstr (s : String)
  | jarr (xs : List JVal)
  | jobj (fields : List (String × JVal))

/-- Embedding of `error` (responses.py lines 35–54).  Mirrors the source:

    response = {"success": False, "error": message}
    if errors:
        response["errors"] = errors
    return jsonify(response), status_code

`if errors:` is Python truthiness: `None` and the empty dict are falsy. -/
def error (message : String) (status_code : Nat)
    (errors : Option (List (String × JVal))) : JVal × Nat :=
  let response := [("success", JVal.jbool false), ("error", JVal.jstr message)]
  match errors with
  | some errs =>
      if errs.isEmpty then (JVal.jobj response, status_code)
      else (JVal.jobj (response ++ [("errors", JVal.jobj errs)]), status_code)
  | none => (JVal.jobj response, status_code)

/-- Embedding of `success` (responses.py lines 13–32).  Mirrors the source:

    response = {"success": True, "data": data}
    if meta:
        response["meta"] = meta
    return jsonify(response), status_code
-/
def success (data : JVal) (meta : Option (List (String × JVal)))
    (status_code : Nat) : JVal × Nat :=
  let response := [("success", JVal.jbool true), ("data", data)]
  match meta with
  | some m =>
      if m.isEmpty then (JVal.jobj response, status_code)
      else (JVal.jobj (response ++ [("meta", JVal.jobj m)]), status_code)
  | none => (JVal.jobj response, status_code)

/-- Embedding of `health_check_db` (health.py lines 38–71), given the boolean
`db_ok = test_connection()` and the formatted current timestamp.
Mirrors the source:

    if db_ok:
        return success({"status": "ok", "database": "connected",
                        "timestamp": ...})
    else:
        return error("Database connection failed", 503)
-/
def health_check_db (db_ok : Bool) (timestamp : String) : JVal × Nat :=
  if db_ok then
    success (JVal.jobj [("status", JVal.jstr "ok"),
      ("database", JVal.jstr "connected"),
      ("timestamp", JVal.jstr timestamp)]) none 200
  else
    error "Database connection failed" 503 none

/-- Python's integer floor division `//`, which raises
`ZeroDivisionError` on a zero divisor. -/
def pyFloorDiv (a b : Nat) : Except PyErr Nat :=
  if b = 0 then Except.error PyErr.zeroDivisionError else Except.ok (a / b)

/-- The `pages` expression of `paginated` (responses.py lines 80–111):
`(total + per_page - 1) // per_page if per_page > 0 else 0`. -/
def paginated_pages (total per_page : Nat) : Except PyErr Nat :=
  if per_page > 0 then pyFloorDiv (total + per_page - 1) per_page
  else Except.ok 0

/-- Embedding of `paginated` (responses.py lines 80–111).  Mirrors the source:

    return success(data=items, meta=dict of pagination with page,
                   per_page, total and the pages expression)
-/
def paginated (items : List JVal) (page per_page total : Nat) :
    Except PyErr (JVal × Nat) :=
  match paginated_pages total per_page with
  | Except.error e => Except.error e
  | Except.ok pages =>
      Except.ok (success (JVal.jarr items)
        (some [("pagination", JVal.jobj
          [("page", JVal.jnum page), ("per_page", JVal.jnum per_page),
           ("total", JVal.jnum total), ("pages", JVal.jnum pages)])]) 200)

/-- Field lookup in a JSON object (first match, as in a Python dict
built by successive insertions of distinct keys). -/
def jlookup (k : String) : JVal → Option JVal
  | JVal.jobj fields => fields.lookup k
  | _ => none

/-- Navigate a response body to `meta.pagination.pages`. -/
def paginationPages (v : JVal) : Option JVal :=
  ((jlookup "meta" v).bind (jlookup "pagination")).bind (jlookup "pages")

end Tdcweb

namespace Tdcweb

/-- C1. Transactional cursor scope, both exit paths.
If the body raises `e` after performing driver calls `evs`, the scope
produces the unchanged exception `e` and the trace
`cursorOpen, evs, rollback, cursorClose`: the connection's rollback is
invoked exactly once by the scope, after the body's own calls and before
the re-raise, and the cursor is released exactly once, last.
If the body completes normally with value `a`, the scope returns `a` and
the trace is `cursorOpen, evs, commit, cursorClose`: commit then exactly
one cursor release.  In both cases the only events the scope itself adds
after the body are the single rollback (resp. commit) and the single
`cursorClose`. -/
theorem get_cursor_rollback_once_release_once {α : Type}
    (evs : List Event) (e : PyErr) (a : α) :
    get_cursor (bodyOf evs (Except.error e : Except PyErr α)) [] =
      (Except.error e,
        Event.cursorOpen :: (evs ++ [Event.rollback, Event.cursorClose])) ∧
    get_cursor (bodyOf evs (Except.ok a)) [] =
      (Except.ok a,
        Event.cursorOpen :: (evs ++ [Event.commit, Event.cursorClose])) := by
  constructor <;>
    simp [get_cursor, bodyOf, Eff.bind, Eff.emit, Eff.pure, Eff.raise,
      Eff.tryExceptAll, Eff.tryFinally]

/-- Once a connection is stored in the request slot, every further
`get_connection` call returns it and leaves the state unchanged. -/
theorem get_connection_calls_bound (c : Conn) :
    ∀ (n : Nat) (s : AppState), s.gConn = some c →
      get_connection_calls n s = (List.replicate n (Except.ok c), s) := by
  intro n
  induction n with
  | zero => intro s _; simp [get_connection_calls]
  | succ m ih =>
    intro s hg
    have hone : get_connection s = (Except.ok c, s) := by
      simp [get_connection, hg]
    simp [get_connection_calls, hone, ih s hg, List.replicate]

/-- C2. In a request context with no bound connection and an
initialised pool, `n ≥ 1` successive `get_connection` calls perform
exactly one pool checkout: every call returns the connection checked out
by the first call, and the checkout counter rises by exactly one. -/
theorem get_connection_one_checkout (s : AppState) (p : Pool) (n : Nat)
    (hg : s.gConn = none) (hp : s.pool = some p) (hn : 1 ≤ n) :
    (get_connection_calls n s).1 = List.replicate n (Except.ok s.checkouts) ∧
    (get_connection_calls n s).2.checkouts = s.checkouts + 1 := by
  obtain ⟨m, rfl⟩ : ∃ m, n = m + 1 := ⟨n - 1, (Nat.succ_pred_eq_of_pos hn).symm⟩
  have hone : get_connection s =
      (Except.ok s.checkouts,
       { s with gConn := some s.checkouts, checkouts := s.checkouts + 1 }) := by
    simp [get_connection, hg, hp]
  have hrest := get_connection_calls_bound s.checkouts m
    { s with gConn := some s.checkouts, checkouts := s.checkouts + 1 } rfl
  simp [get_connection_calls, hone, hrest, List.replicate]

/-- Witness for C2: from a fresh state whose pool is initialised, three
calls all return connection 0 and exactly one checkout happens. -/
theorem get_connection_one_checkout_witness :
    ({ initState with pool := some 1 } : AppState).gConn = none ∧
    ({ initState with pool := some 1 } : AppState).pool = some 1 ∧
    (get_connection_calls 3 { initState with pool := some 1 }).1 =
      List.replicate 3 (Except.ok 0) ∧
    (get_connection_calls 3 { initState with pool := some 1 }).2.checkouts = 1 :=
  ⟨rfl, rfl,
    (get_connection_one_checkout { initState with pool := some 1 } 1 3 rfl rfl
      (by decide)).1,
    (get_connection_one_checkout { initState with pool := some 1 } 1 3 rfl rfl
      (by decide)).2⟩

/-- Counterexample for C3.  The `except` clause in `close_connection`
catches only `mysql.connector.Error`: when the driver's `conn.close()`
raises any other exception, `close_connection` propagates it to the
caller instead of catching and logging it. -/
theorem close_connection_propagates_cex :
    (close_connection (fun _ => CloseResult.raises (PyErr.otherError "boom"))
        { pool := some 1, gConn := some 0, checkouts := 1, closeCalls := 0,
          poolsReclaimed := [] }).1 =
      Except.error (PyErr.otherError "boom") := rfl

/-- C3, amended. Operation `close_connection` never raises when the bound
connection's `close()` either succeeds or fails with a driver error
(`mysql.connector.Error`): in every state, for either of those close
behaviours, the call returns normally (the driver error is caught and
logged).  Exceptions outside the driver's error class are not covered
by the `except` clause. -/
theorem close_connection_no_raise (m : String) (s : AppState) :
    (close_connection (fun _ => CloseResult.okClose) s).1 = Except.ok () ∧
    (close_connection (fun _ => CloseResult.raises (PyErr.mysqlError m)) s).1 =
      Except.ok () := by
  cases hg : s.gConn <;> simp [close_connection, hg]

/-- A call to `close_connection` in a state with no bound connection is a
no-op that returns normally (`g.pop` yields `None`). -/
theorem close_connection_noop (f : Conn → CloseResult) (s : AppState)
    (hg : s.gConn = none) :
    close_connection f s = (Except.ok (), s) := by
  simp [close_connection, hg]

/-- After any `close_connection` call, the request slot is empty
(`g.pop` removed the binding on every path, even the raising one). -/
theorem close_connection_clears_slot (f : Conn → CloseResult) (s : AppState) :
    (close_connection f s).2.gConn = none := by
  cases hg : s.gConn with
  | none => simp [close_connection, hg]
  | some c =>
    cases hres : f c with
    | okClose => simp [close_connection, hg, hres]
    | raises e => cases e <;> simp [close_connection, hg, hres]

/-- One call to `close_connection` performs at most one `conn.close()`. -/
theorem close_connection_one_close (f : Conn → CloseResult) (s : AppState) :
    (close_connection f s).2.closeCalls ≤ s.closeCalls + 1 := by
  cases hg : s.gConn with
  | none => simp [close_connection, hg]
  | some c =>
    cases hres : f c with
    | okClose => simp [close_connection, hg, hres]
    | raises e => cases e <;> simp [close_connection, hg, hres]

/-- C4. Operation `close_connection` is idempotent: two successive calls
perform the `conn.close()` action at most once in total, the second call
is a no-op returning normally, and a call in a state with no bound
connection changes nothing and returns normally. -/
theorem close_connection_idempotent (f : Conn → CloseResult) (s : AppState) :
    (close_connection f (close_connection f s).2).2.closeCalls ≤ s.closeCalls + 1 ∧
    close_connection f (close_connection f s).2 = (Except.ok (), (close_connection f s).2) ∧
    close_connection f { s with gConn := none } = (Except.ok (), { s with gConn := none }) := by
  have hsecond := close_connection_noop f (close_connection f s).2
    (close_connection_clears_slot f s)
  refine ⟨?_, hsecond, close_connection_noop f { s with gConn := none } rfl⟩
  rw [hsecond]
  exact close_connection_one_close f s

/-- Counterexample for C5.  Starting from a fresh state, a first
successful `init_pool` stores pool 1; a second successful `init_pool`
neither fails nor reclaims pool 1's connections: it returns normally and
simply overwrites the global with pool 2, with no close/return of the
prior pool ever recorded — the silent leak the claim excludes. -/
theorem init_pool_leak_cex :
    init_pool (Except.ok 2) (init_pool (Except.ok 1) initState).2 =
      (Except.ok (),
       { pool := some 2, gConn := none, checkouts := 0, closeCalls := 0,
         poolsReclaimed := [] }) ∧
    (init_pool (Except.ok 2) (init_pool (Except.ok 1) initState).2).2.poolsReclaimed = [] :=
  ⟨rfl, rfl⟩

/-- C5, amended. Re-initialisation is neither rejected nor
resource-reclaiming: a second successful `init_pool` replaces the stored
pool and returns normally, never closing or returning the prior pool's
connections (`poolsReclaimed` is unchanged on every path), and a failed
creation propagates the error leaving the stored pool unchanged. -/
theorem init_pool_replaces_without_reclaim (p : Pool) (e : PyErr) (s : AppState) :
    init_pool (Except.ok p) s = (Except.ok (), { s with pool := some p }) ∧
    (init_pool (Except.ok p) s).2.poolsReclaimed = s.poolsReclaimed ∧
    init_pool (Except.error e) s = (Except.error e, s) := by
  simp [init_pool]

/-- C6. With no bound connection and an uninitialised pool,
`get_connection` fails with the pool-not-initialized lifecycle error
(`RuntimeError("Database pool not initialized. Call init_pool first.")`)
and changes nothing — it neither returns a connection nor fails any
other way. -/
theorem get_connection_no_pool_error (s : AppState)
    (hg : s.gConn = none) (hp : s.pool = none) :
    get_connection s =
      (Except.error (PyErr.runtimeError
        "Database pool not initialized. Call init_pool first."), s) := by
  simp [get_connection, hg, hp]

/-- Witness for C6: the fresh state has no bound connection and no pool,
and `get_connection` fails there with the lifecycle error. -/
theorem get_connection_no_pool_error_witness :
    initState.gConn = none ∧ initState.pool = none ∧
    get_connection initState =
      (Except.error (PyErr.runtimeError
        "Database pool not initialized. Call init_pool first."), initState) :=
  ⟨rfl, rfl, get_connection_no_pool_error initState rfl rfl⟩

/-- C7. Operation `test_connection` is a total boolean signal: for every probe
outcome it returns normally (no exception propagates — in particular
every exception raised inside the probe is converted), and the returned
boolean is `true` exactly when the probe produced a row whose
`connected` value equals 1. -/
theorem test_connection_total_boolean (o : ProbeOutcome) :
    test_connection o = Except.ok (decide (o = ProbeOutcome.row (some 1))) := by
  cases o with
  | row c =>
    cases c with
    | none => simp [test_connection, pyTryAll]
    | some n =>
      by_cases h : n = 1 <;> simp [test_connection, pyTryAll, h]
  | noRow => simp [test_connection, pyTryAll]
  | raised e => simp [test_connection, pyTryAll]

/-- C8. Operation `execute` returns the cursor's `lastrowid` exactly when the
query with surrounding whitespace stripped starts, case-insensitively,
with `INSERT`, and the cursor's `rowcount` for every other statement:
the source's `strip().upper().startswith('INSERT')` dispatch coincides
with the claim's case-insensitive-prefix classification. -/
theorem execute_insert_dispatch (query : List Char) (lastrowid rowcount : Int) :
    execute query lastrowid rowcount =
      if insertShapedSpec query then lastrowid else rowcount := by
  have h : pyStartswith (pyUpper (pyStrip query)) "INSERT".data =
      insertShapedSpec query := by
    rw [Bool.eq_iff_iff, pyStartswith, pyUpper, insertShapedSpec]
    rw [List.isPrefixOf_iff_prefix, List.prefix_iff_eq_take, decide_eq_true_iff]
    rw [← List.map_take]
    constructor
    · intro hpre; exact hpre.symm
    · intro hpre; exact hpre.symm
  rw [execute, h]

/-- C9. Endpoint `GET /health/db`: when the connectivity probe reports `true`
the endpoint returns HTTP 200; when it reports `false` it returns
HTTP 503 with exactly the body
`success: false, error: "Database connection failed"`. -/
theorem health_check_db_status (timestamp : String) :
    (health_check_db true timestamp).2 = 200 ∧
    health_check_db false timestamp =
      (JVal.jobj [("success", JVal.jbool false),
        ("error", JVal.jstr "Database connection failed")], 503) :=
  ⟨rfl, rfl⟩

/-- C10. Operation `paginated` never divides by zero: for every items list and
page/per_page/total it returns normally, and the `pages` value in its
pagination metadata is the ceiling of `total / per_page` when
`per_page > 0` and `0` when `per_page = 0`. -/
theorem paginated_pages_safe (items : List JVal) (page per_page total : Nat) :
    ∃ body : JVal × Nat,
      paginated items page per_page total = Except.ok body ∧
      paginationPages body.1 =
        some (JVal.jnum ((if 0 < per_page then total ⌈/⌉ per_page else 0 : Nat) : Int)) := by
  rcases Nat.eq_zero_or_pos per_page with hz | hp
  · subst hz
    refine ⟨_, rfl, ?_⟩
    rfl
  · have hne : per_page ≠ 0 := Nat.pos_iff_ne_zero.mp hp
    have hpages : paginated_pages total per_page =
        Except.ok (total ⌈/⌉ per_page) := by
      rw [paginated_pages, if_pos hp, pyFloorDiv, if_neg hne,
        Nat.ceilDiv_eq_add_pred_div]
    refine ⟨success (JVal.jarr items)
        (some [("pagination", JVal.jobj
          [("page", JVal.jnum page), ("per_page", JVal.jnum per_page),
           ("total", JVal.jnum total),
           ("pages", JVal.jnum ((total ⌈/⌉ per_page : Nat) : Int))])]) 200, ?_, ?_⟩
    · simp [paginated, hpages]
    · rw [if_pos hp]
      rfl

end Tdcweb
